import Mathlib

/-!
Shallow embedding of the daily-lives / streak / points gamification core of
the mentek repository (src/app/repositories/user_repository.py,
src/app/services/user_service.py, src/app/models/user.py,
src/app/schemas/user.py), together with theorems settling the frozen claims.

Modelling conventions:
- A persisted user record is a `GameUser`; the per-user database slot is
  `Option GameUser` (`none` models a missing row, as returned by repository
  loading).
- Python integers are `Int`; calendar dates carry no arithmetic here beyond
  equality, so they are `Nat` codes.
- `date.today()` is not a parameter of the Python functions; the repository
  and service read the ambient system clock.  In the pure embedding the
  ambient date is threaded as an explicit `today : Nat` argument standing for
  the value `date.today()` returned during the operation.
- Each repository method wraps its body in try/except: a raised persistence
  failure is caught, the session is rolled back, and the ordinary value
  `False` is returned.  The embedding takes a flag `ok : Bool` meaning "the
  commit call succeeds"; on `ok = false` the method returns `false` and the
  persisted state is the rollback of the original.
- `writes` counts the commit calls issued to the persistence collaborator
  (a failed commit still counts as an issued call).
-/

namespace Mentek

/-- The gamification fields of a persisted user row
(src/app/models/user.py lines 25-42): points, streak counters, daily lives,
last reset date, plus the visibility flags `active` and `deleted`
(`deleted` models `deleted_at is not None`). -/
structure GameUser where
  total_points : Int
  current_streak : Int
  max_streak : Int
  daily_lives : Int
  lives_reset_date : Nat
  active : Bool
  deleted : Bool
deriving Repr, DecidableEq

/-- The per-user database slot seen through the repository loader:
the row, or `none` when absent. -/
abbrev DB := Option GameUser

/-- The daily life budget hard-coded as the literal 5 in
user_repository.py lines 326 and 355. -/
def MAX_LIVES : Int := 5

/-- Outcome of a repository method: the returned boolean, the persisted
state after the call, and the number of commit calls issued. -/
structure RepoOut where
  ret : Bool
  db : DB
  writes : Nat
deriving Repr, DecidableEq

/-- UserRepository.update_points (user_repository.py lines 256-280):
load the row; missing row returns False; otherwise set
total_points = max(0, total_points + points_to_add) and commit.  A commit
failure is caught: rollback, return False. -/
def update_points (db : DB) (points_to_add : Int) (ok : Bool) : RepoOut :=
  match db with
  | none => ⟨false, db, 0⟩
  | some u =>
    let u' := { u with total_points := max 0 (u.total_points + points_to_add) }
    if ok then ⟨true, some u', 1⟩ else ⟨false, db, 1⟩

/-- UserRepository.update_streak (user_repository.py lines 282-308):
current_streak becomes max(0, new_streak); max_streak is raised to it when
exceeded.  Commit failure is caught: rollback, return False. -/
def update_streak (db : DB) (new_streak : Int) (ok : Bool) : RepoOut :=
  match db with
  | none => ⟨false, db, 0⟩
  | some u =>
    let cs := max 0 new_streak
    let u' := { u with
      current_streak := cs,
      max_streak := if cs > u.max_streak then cs else u.max_streak }
    if ok then ⟨true, some u', 1⟩ else ⟨false, db, 1⟩

/-- UserRepository.reset_daily_lives (user_repository.py lines 310-335):
set daily_lives = 5 and lives_reset_date = date.today(), commit.  The
ambient date read by date.today() is the `today` argument. -/
def repo_reset_daily_lives (db : DB) (today : Nat) (ok : Bool) : RepoOut :=
  match db with
  | none => ⟨false, db, 0⟩
  | some u =>
    let u' := { u with daily_lives := MAX_LIVES, lives_reset_date := today }
    if ok then ⟨true, some u', 1⟩ else ⟨false, db, 1⟩

/-- The staleness reset applied inside UserRepository.use_life
(user_repository.py lines 352-356): if lives_reset_date differs from
date.today(), set daily_lives = 5 and lives_reset_date = today. -/
def heal (u : GameUser) (today : Nat) : GameUser :=
  if u.lives_reset_date ≠ today
  then { u with daily_lives := MAX_LIVES, lives_reset_date := today }
  else u

/-- UserRepository.use_life (user_repository.py lines 337-370):
load the row (missing gives False); apply the staleness reset; if
daily_lives <= 0 return False before any commit (persisted state
unchanged); otherwise decrement daily_lives and commit.  Commit failure is
caught: rollback, return False. -/
def use_life (db : DB) (today : Nat) (ok : Bool) : RepoOut :=
  match db with
  | none => ⟨false, db, 0⟩
  | some u =>
    let u1 := heal u today
    if u1.daily_lives ≤ 0 then ⟨false, db, 0⟩
    else if ok then ⟨true, some { u1 with daily_lives := u1.daily_lives - 1 }, 1⟩
    else ⟨false, db, 1⟩

/-- The visibility filter applied by the service before acting
(user_service.py lines 46, 106, 153): the row must exist, not be soft
deleted, and be active. -/
def visible (db : DB) : Option GameUser :=
  match db with
  | none => none
  | some u => if !u.deleted && u.active then some u else none

/-- Outcome of a service operation: the returned Python value (None, a
user, or - on the delegating path of reset_daily_lives, which returns the
repository boolean unchanged - a bool), the persisted state after the
call, and the commit calls issued. -/
structure ServiceOut where
  ret : Option (GameUser ⊕ Bool)
  db : DB
  writes : Nat
deriving Repr, DecidableEq

/-- UserService.reset_daily_lives (user_service.py lines 150-161):
invisible users give None; if lives_reset_date equals date.today() the
loaded user is returned with no repository call; otherwise the result of
UserRepository.reset_daily_lives (a boolean) is returned as is. -/
def service_reset_daily_lives (db : DB) (today : Nat) (ok : Bool) : ServiceOut :=
  match visible db with
  | none => ⟨none, db, 0⟩
  | some u =>
    if u.lives_reset_date = today then ⟨some (Sum.inl u), db, 0⟩
    else
      let r := repo_reset_daily_lives db today ok
      ⟨some (Sum.inr r.ret), r.db, r.writes⟩

/-- UserService.check_and_reset_daily_lives (user_service.py lines
163-173): invisible users give None; a stale record is delegated to
UserService.reset_daily_lives; a current record is returned unchanged. -/
def check_and_reset_daily_lives (db : DB) (today : Nat) (ok : Bool) : ServiceOut :=
  match visible db with
  | none => ⟨none, db, 0⟩
  | some u =>
    if u.lives_reset_date ≠ today then service_reset_daily_lives db today ok
    else ⟨some (Sum.inl u), db, 0⟩

/-- A game-stats patch: any subset of the four fields, each present field
carrying its replacement value.  Mirrors the exclude_unset dict built in
UserService.update_user_game_stats (user_service.py line 109). -/
structure GameStatsPatch where
  total_points : Option Int
  current_streak : Option Int
  max_streak : Option Int
  daily_lives : Option Int
deriving Repr, DecidableEq

/-- Modelled from the spec: UserRepository.update_game_stats is called
from UserService.update_user_game_stats (user_service.py line 111) but its
definition is not in the source tree.  Spec section 4.1
(applyGameStatsPatch): each present field overwrites the corresponding
attribute directly, with no clamping and no re-derivation of
max_streak >= current_streak; absent fields are left untouched;
persists and returns the updated state. -/
def update_game_stats (db : DB) (p : GameStatsPatch) : Option GameUser × DB :=
  match db with
  | none => (none, db)
  | some u =>
    let u' := { u with
      total_points := p.total_points.getD u.total_points,
      current_streak := p.current_streak.getD u.current_streak,
      max_streak := p.max_streak.getD u.max_streak,
      daily_lives := p.daily_lives.getD u.daily_lives }
    (some u', some u')

/-- UserService.update_user_game_stats (user_service.py lines 103-118):
invisible users give None; otherwise the four optional fields of the patch
are forwarded to the repository overwrite. -/
def update_user_game_stats (db : DB) (p : GameStatsPatch) : Option GameUser × DB :=
  match visible db with
  | none => (none, db)
  | some _ => update_game_stats db p

/-- User.is_active (user.py lines 65-68): active and not soft deleted. -/
def GameUser.is_active (u : GameUser) : Bool :=
  u.active && !u.deleted

/-- User.has_lives_today (user.py lines 70-76): a record whose
lives_reset_date differs from date.today() reports True regardless of the
stored counter; otherwise daily_lives > 0 decides. -/
def GameUser.has_lives_today (u : GameUser) (today : Nat) : Bool :=
  if u.lives_reset_date ≠ today then true
  else decide (u.daily_lives > 0)

/-- User.can_play (user.py lines 78-80): active and has lives today. -/
def GameUser.can_play (u : GameUser) (today : Nat) : Bool :=
  u.is_active && u.has_lives_today today

/-- The fields of the UserResponse projection that feed its computed
can_play field (schemas/user.py lines 128-149). -/
structure UserResponse where
  total_points : Int
  current_streak : Int
  max_streak : Int
  daily_lives : Int
  lives_reset_date : Nat
  active : Bool
deriving Repr, DecidableEq

/-- The can_play value computed in UserResponse.model_post_init
(schemas/user.py lines 165-169):
active and (lives_reset_date != today or daily_lives > 0). -/
def UserResponse.can_play_field (r : UserResponse) (today : Nat) : Bool :=
  r.active && (decide (r.lives_reset_date ≠ today) || decide (r.daily_lives > 0))

/-- A sequence of successful update_points calls folded over the
persisted slot. -/
def run_points (db : DB) (calls : List Int) : DB :=
  calls.foldl (fun d delta => (update_points d delta true).db) db

/-- A sequence of successful update_streak calls folded over the
persisted slot. -/
def run_streak (db : DB) (calls : List Int) : DB :=
  calls.foldl (fun d ns => (update_streak d ns true).db) db

/-- Claim C1 (staleness auto-heal): on a persisted state whose
lives_reset_date D1 differs from the operating date D2, the staleness
transform applied first by use_life yields daily_lives = MAX_LIVES and
lives_reset_date = D2, so use_life ends with daily_lives = 4 and
lives_reset_date = D2; and check_and_reset_daily_lives as well as
service_reset_daily_lives (on a visible user) leave the persisted state
with daily_lives = MAX_LIVES and lives_reset_date = D2. -/
theorem c1_staleness_auto_heal (u : GameUser) (d2 : Nat)
    (h : u.lives_reset_date ≠ d2) :
    ((heal u d2).daily_lives = MAX_LIVES ∧ (heal u d2).lives_reset_date = d2)
    ∧ ((use_life (some u) d2 true).ret = true
        ∧ (use_life (some u) d2 true).db.map
            (fun v => (v.daily_lives, v.lives_reset_date)) = some (4, d2))
    ∧ (u.active = true → u.deleted = false →
        (check_and_reset_daily_lives (some u) d2 true).db.map
            (fun v => (v.daily_lives, v.lives_reset_date)) = some (MAX_LIVES, d2)
        ∧ (service_reset_daily_lives (some u) d2 true).db.map
            (fun v => (v.daily_lives, v.lives_reset_date)) = some (MAX_LIVES, d2)) := by
  have hheal : heal u d2 =
      { u with daily_lives := MAX_LIVES, lives_reset_date := d2 } := by
    simp [heal, h]
  refine ⟨⟨by simp [hheal], by simp [hheal]⟩, ⟨?_, ?_⟩, ?_⟩
  · simp [use_life, hheal, MAX_LIVES]
  · simp [use_life, hheal, MAX_LIVES]
  · intro hA hD
    constructor
    · simp [check_and_reset_daily_lives, service_reset_daily_lives, visible,
        repo_reset_daily_lives, hA, hD, h]
    · simp [service_reset_daily_lives, visible, repo_reset_daily_lives,
        hA, hD, h]

/-- Witness for C1 at a concrete stale state. -/
theorem c1_staleness_auto_heal_witness :
    ((⟨0, 0, 0, 0, 3, true, false⟩ : GameUser).lives_reset_date ≠ 7)
    ∧ (use_life (some ⟨0, 0, 0, 0, 3, true, false⟩) 7 true).db.map
        (fun v => (v.daily_lives, v.lives_reset_date)) = some (4, 7)
    ∧ (check_and_reset_daily_lives (some ⟨0, 0, 0, 0, 3, true, false⟩) 7 true).db.map
        (fun v => (v.daily_lives, v.lives_reset_date)) = some (MAX_LIVES, 7) :=
  ⟨by decide,
   (c1_staleness_auto_heal ⟨0, 0, 0, 0, 3, true, false⟩ 7 (by decide)).2.1.2,
   ((c1_staleness_auto_heal ⟨0, 0, 0, 0, 3, true, false⟩ 7 (by decide)).2.2 rfl rfl).1⟩

/-- Claim C2, counterexample: the claim asserts that an exhausted life
budget is surfaced as a condition distinct from a missing user record.
In the code both surface as the bare return value False of use_life: at
the concrete exhausted state (daily_lives = 0, lives_reset_date = today
= 5) and at the missing record, the caller-visible outcomes coincide. -/
theorem c2_exhaustion_counterexample :
    (use_life (some ⟨0, 0, 0, 0, 5, true, false⟩) 5 true).ret = false
    ∧ (use_life none 5 true).ret = false
    ∧ (use_life (some ⟨0, 0, 0, 0, 5, true, false⟩) 5 true).ret
        = (use_life none 5 true).ret := by
  decide

/-- Claim C2 as amended: with daily_lives = 0 and lives_reset_date =
today, use_life returns False and leaves the persisted state completely
unchanged, with no commit issued; but this failure is the same ordinary
False that use_life returns for a missing user record, so exhaustion and
not-found are not distinguishable from its result. -/
theorem c2_exhaustion_amended (u : GameUser) (today : Nat) (ok : Bool)
    (h0 : u.daily_lives = 0) (hd : u.lives_reset_date = today) :
    use_life (some u) today ok = ⟨false, some u, 0⟩
    ∧ (use_life none today ok).ret = false := by
  constructor
  · simp [use_life, heal, hd, h0]
  · simp [use_life]

/-- Witness for the amended C2 at a concrete exhausted state. -/
theorem c2_exhaustion_amended_witness :
    use_life (some ⟨9, 1, 2, 0, 5, true, false⟩) 5 true
      = ⟨false, some ⟨9, 1, 2, 0, 5, true, false⟩, 0⟩ :=
  (c2_exhaustion_amended ⟨9, 1, 2, 0, 5, true, false⟩ 5 true rfl rfl).1

/-- Claim C3 (reset idempotence): on a visible user whose
lives_reset_date already equals today, service_reset_daily_lives and
check_and_reset_daily_lives return the loaded state unchanged with zero
commit calls; and from any slot, a second check_and_reset_daily_lives
run after a first successful one leaves the persisted state unchanged
and issues zero commit calls. -/
theorem c3_reset_idempotence (u : GameUser) (today : Nat) (ok : Bool)
    (hA : u.active = true) (hD : u.deleted = false)
    (h : u.lives_reset_date = today) :
    service_reset_daily_lives (some u) today ok = ⟨some (Sum.inl u), some u, 0⟩
    ∧ check_and_reset_daily_lives (some u) today ok = ⟨some (Sum.inl u), some u, 0⟩
    ∧ (∀ db : DB,
        (check_and_reset_daily_lives
            (check_and_reset_daily_lives db today true).db today true).db
          = (check_and_reset_daily_lives db today true).db
        ∧ (check_and_reset_daily_lives
            (check_and_reset_daily_lives db today true).db today true).writes = 0) := by
  refine ⟨?_, ?_, ?_⟩
  · simp [service_reset_daily_lives, visible, hA, hD, h]
  · simp [check_and_reset_daily_lives, visible, hA, hD, h]
  · intro db
    match db with
    | none =>
      simp [check_and_reset_daily_lives, visible]
    | some w =>
      by_cases hv : !w.deleted && w.active
      · by_cases hw : w.lives_reset_date = today
        · simp [check_and_reset_daily_lives, visible, hv, hw]
        · have : check_and_reset_daily_lives (some w) today true
              = ⟨some (Sum.inr true),
                 some { w with daily_lives := MAX_LIVES, lives_reset_date := today }, 1⟩ := by
            simp [check_and_reset_daily_lives, service_reset_daily_lives,
              visible, repo_reset_daily_lives, hv, hw]
          rw [this]
          simp [check_and_reset_daily_lives, visible, hv]
      · simp [check_and_reset_daily_lives, visible, hv]

/-- Witness for C3 at a concrete current state. -/
theorem c3_reset_idempotence_witness :
    service_reset_daily_lives (some ⟨8, 1, 4, 2, 6, true, false⟩) 6 true
      = ⟨some (Sum.inl ⟨8, 1, 4, 2, 6, true, false⟩), some ⟨8, 1, 4, 2, 6, true, false⟩, 0⟩
    ∧ (check_and_reset_daily_lives
        (check_and_reset_daily_lives (some ⟨8, 1, 4, 2, 9, true, false⟩) 6 true).db 6 true).writes
        = 0 :=
  ⟨(c3_reset_idempotence ⟨8, 1, 4, 2, 6, true, false⟩ 6 true rfl rfl rfl).1,
   ((c3_reset_idempotence ⟨8, 1, 4, 2, 6, true, false⟩ 6 true rfl rfl rfl).2.2
      (some ⟨8, 1, 4, 2, 9, true, false⟩)).2⟩

/-- Along any sequence of successful update_points calls, a nonnegative
total_points stays nonnegative. -/
lemma run_points_nonneg (calls : List Int) :
    ∀ db : DB, (∀ u, db = some u → 0 ≤ u.total_points) →
      ∀ v, run_points db calls = some v → 0 ≤ v.total_points := by
  induction calls with
  | nil =>
    intro db h v hv
    exact h v hv
  | cons c cs ih =>
    intro db h v hv
    have hstep : ∀ u', (update_points db c true).db = some u' → 0 ≤ u'.total_points := by
      intro u' hu'
      match db with
      | none => simp [update_points] at hu'
      | some u =>
        simp [update_points] at hu'
        rw [← hu']
        exact le_max_left 0 _
    exact ih (update_points db c true).db hstep v hv

/-- Claim C4 (points floor): update_points on an existing row succeeds
and sets total_points to exactly max 0 (total_points + delta); and from
any starting row with nonnegative points, total_points remains
nonnegative after every sequence of update_points calls. -/
theorem c4_points_floor (u : GameUser) (delta : Int) (calls : List Int)
    (h : 0 ≤ u.total_points) :
    (update_points (some u) delta true).ret = true
    ∧ (update_points (some u) delta true).db.map GameUser.total_points
        = some (max 0 (u.total_points + delta))
    ∧ (∀ v, run_points (some u) calls = some v → 0 ≤ v.total_points) := by
  refine ⟨by simp [update_points], by simp [update_points], ?_⟩
  intro v hv
  refine run_points_nonneg calls (some u) ?_ v hv
  intro w hw
  cases hw
  exact h

/-- Witness for C4 at a concrete state and a concrete delta sequence. -/
theorem c4_points_floor_witness :
    (update_points (some ⟨5, 0, 0, 5, 0, true, false⟩) (-7) true).db.map
        GameUser.total_points = some (max 0 ((5 : Int) + (-7)))
    ∧ 0 ≤ (⟨0, 0, 0, 5, 0, true, false⟩ : GameUser).total_points :=
  ⟨(c4_points_floor ⟨5, 0, 0, 5, 0, true, false⟩ (-7) [] (by decide)).2.1,
   (c4_points_floor ⟨5, 0, 0, 5, 0, true, false⟩ (-7) [-7] (by decide)).2.2
     ⟨0, 0, 0, 5, 0, true, false⟩ (by decide)⟩

/-- One successful update_streak call raises max_streak when the new
current_streak exceeds it, keeps it otherwise, and leaves the invariant
current_streak less or equal max_streak. -/
lemma update_streak_step (u : GameUser) (ns : Int) :
    ∃ v, (update_streak (some u) ns true).db = some v
      ∧ v.current_streak = max 0 ns
      ∧ u.max_streak ≤ v.max_streak
      ∧ v.current_streak ≤ v.max_streak := by
  have h1 : (update_streak (some u) ns true).db = some { u with current_streak := max 0 ns, max_streak := if max 0 ns > u.max_streak then max 0 ns else u.max_streak } := by
    simp [update_streak]
  refine ⟨_, h1, rfl, ?_, ?_⟩
  · show u.max_streak ≤ if max 0 ns > u.max_streak then max 0 ns else u.max_streak
    split
    · next h => exact le_of_lt h
    · exact le_refl _
  · show max 0 ns ≤ if max 0 ns > u.max_streak then max 0 ns else u.max_streak
    split
    · exact le_refl _
    · next h => exact not_lt.mp h

/-- Along any sequence of successful update_streak calls starting from an
existing row, the run ends on an existing row, max_streak never
decreases, and after a nonempty run current_streak is bounded by
max_streak. -/
lemma run_streak_inv (calls : List Int) :
    ∀ u : GameUser, ∃ v, run_streak (some u) calls = some v
      ∧ u.max_streak ≤ v.max_streak
      ∧ (calls = [] → v = u)
      ∧ (calls ≠ [] → v.current_streak ≤ v.max_streak) := by
  induction calls with
  | nil =>
    intro u
    exact ⟨u, by simp [run_streak], le_refl _, fun _ => rfl, fun h => absurd rfl h⟩
  | cons c cs ih =>
    intro u
    obtain ⟨u1, hu1, hcs, hms, hinv⟩ := update_streak_step u c
    obtain ⟨v, hv, hmono, hnil, hne⟩ := ih u1
    refine ⟨v, ?_, le_trans hms hmono, fun h => by simp at h, fun _ => ?_⟩
    · have : run_streak (some u) (c :: cs) = run_streak (update_streak (some u) c true).db cs := by
        simp [run_streak, List.foldl_cons]
      rw [this, hu1]
      exact hv
    · by_cases hcs0 : cs = []
      · subst hcs0
        rw [hnil rfl]
        exact hinv
      · exact hne hcs0

/-- Claim C5 (streak update): update_streak sets current_streak to
max 0 new_streak, raises max_streak to it exactly when it exceeds the
old max_streak (otherwise max_streak is unchanged), and over every
sequence of update_streak calls max_streak is non-decreasing and bounds
current_streak after each call. -/
theorem c5_streak_update (u : GameUser) (ns : Int) (calls : List Int) :
    (update_streak (some u) ns true).ret = true
    ∧ (update_streak (some u) ns true).db.map GameUser.current_streak
        = some (max 0 ns)
    ∧ (u.max_streak < max 0 ns →
        (update_streak (some u) ns true).db.map GameUser.max_streak
          = some (max 0 ns))
    ∧ (¬ u.max_streak < max 0 ns →
        (update_streak (some u) ns true).db.map GameUser.max_streak
          = some u.max_streak)
    ∧ (∀ v, (update_streak (some u) ns true).db = some v →
        u.max_streak ≤ v.max_streak ∧ v.current_streak ≤ v.max_streak)
    ∧ (∀ v, run_streak (some u) calls = some v →
        u.max_streak ≤ v.max_streak
        ∧ (calls ≠ [] → v.current_streak ≤ v.max_streak)) := by
  refine ⟨by simp [update_streak], by simp [update_streak], ?_, ?_, ?_, ?_⟩
  · intro hlt
    simp [update_streak, hlt]
  · intro hlt
    simp [update_streak, hlt]
  · intro v hv
    obtain ⟨w, hw, _, hms, hinv⟩ := update_streak_step u ns
    rw [hw] at hv
    cases hv
    exact ⟨hms, hinv⟩
  · intro v hv
    obtain ⟨w, hw, hmono, _, hne⟩ := run_streak_inv calls u
    rw [hw] at hv
    cases hv
    exact ⟨hmono, hne⟩

/-- Witness for C5 at the concrete scenario of spec section 8 item 6:
streak 3 with max 5 updated to 6 gives current 6 and max 6. -/
theorem c5_streak_update_witness :
    (update_streak (some ⟨100, 3, 5, 2, 0, true, false⟩) 6 true).db.map
        GameUser.current_streak = some (max 0 (6 : Int))
    ∧ (update_streak (some ⟨100, 3, 5, 2, 0, true, false⟩) 6 true).db.map
        GameUser.max_streak = some (max 0 (6 : Int)) :=
  ⟨(c5_streak_update ⟨100, 3, 5, 2, 0, true, false⟩ 6 []).2.1,
   (c5_streak_update ⟨100, 3, 5, 2, 0, true, false⟩ 6 []).2.2.1 (by decide)⟩

/-- Claim C6, counterexample: the claim that max_streak is at least
current_streak after every mutating operation fails for the game-stats
patch: on the state with current_streak 3 and max_streak 5 (invariant
satisfied), the patch setting only current_streak to 10 persists a state
with current_streak 10 above max_streak 5. -/
theorem c6_invariant_counterexample :
    (update_user_game_stats (some ⟨0, 3, 5, 5, 0, true, false⟩)
        ⟨none, some 10, none, none⟩).2
      = some ⟨0, 10, 5, 5, 0, true, false⟩
    ∧ ((update_user_game_stats (some ⟨0, 3, 5, 5, 0, true, false⟩)
          ⟨none, some 10, none, none⟩).2.map
        (fun v => decide (v.current_streak ≤ v.max_streak))) = some false := by
  decide

/-- Claim C6 as amended: starting from a state satisfying
current_streak less or equal max_streak, the invariant still holds after
update_points, update_streak, use_life, repository and service daily-life
resets, and check_and_reset_daily_lives; the game-stats patch preserves
it only when the patched values themselves satisfy it, since it performs
no re-derivation. -/
theorem c6_streak_invariant_amended (u : GameUser)
    (h : u.current_streak ≤ u.max_streak)
    (delta ns : Int) (today : Nat) (ok : Bool) (p : GameStatsPatch) :
    (∀ v, (update_points (some u) delta ok).db = some v →
        v.current_streak ≤ v.max_streak)
    ∧ (∀ v, (update_streak (some u) ns ok).db = some v →
        v.current_streak ≤ v.max_streak)
    ∧ (∀ v, (use_life (some u) today ok).db = some v →
        v.current_streak ≤ v.max_streak)
    ∧ (∀ v, (repo_reset_daily_lives (some u) today ok).db = some v →
        v.current_streak ≤ v.max_streak)
    ∧ (∀ v, (service_reset_daily_lives (some u) today ok).db = some v →
        v.current_streak ≤ v.max_streak)
    ∧ (∀ v, (check_and_reset_daily_lives (some u) today ok).db = some v →
        v.current_streak ≤ v.max_streak)
    ∧ (p.current_streak.getD u.current_streak ≤ p.max_streak.getD u.max_streak →
        ∀ v, (update_user_game_stats (some u) p).2 = some v →
          v.current_streak ≤ v.max_streak) := by
  refine ⟨?_, ?_, ?_, ?_, ?_, ?_, ?_⟩
  · intro v hv
    by_cases hok : ok = true
    · subst hok
      simp [update_points] at hv
      rw [← hv]
      exact h
    · rw [Bool.not_eq_true] at hok
      subst hok
      simp [update_points] at hv
      rw [← hv]
      exact h
  · intro v hv
    by_cases hok : ok = true
    · subst hok
      obtain ⟨w, hw, _, _, hinv⟩ := update_streak_step u ns
      rw [hw] at hv
      cases hv
      exact hinv
    · rw [Bool.not_eq_true] at hok
      subst hok
      simp [update_streak] at hv
      rw [← hv]
      exact h
  · intro v hv
    have hframe : ∀ w : GameUser, (use_life (some u) today ok).db = some w →
        w.current_streak = u.current_streak ∧ w.max_streak = u.max_streak := by
      intro w hw
      by_cases hst : u.lives_reset_date ≠ today
      · by_cases hok : ok = true
        · subst hok
          norm_num [use_life, heal, hst, MAX_LIVES] at hw
          subst hw
          exact ⟨rfl, rfl⟩
        · rw [Bool.not_eq_true] at hok
          subst hok
          norm_num [use_life, heal, hst, MAX_LIVES] at hw
          subst hw
          exact ⟨rfl, rfl⟩
      · by_cases hl : u.daily_lives ≤ 0
        · norm_num [use_life, heal, hst, hl] at hw
          subst hw
          exact ⟨rfl, rfl⟩
        · by_cases hok : ok = true
          · subst hok
            norm_num [use_life, heal, hst, hl] at hw
            subst hw
            exact ⟨rfl, rfl⟩
          · rw [Bool.not_eq_true] at hok
            subst hok
            norm_num [use_life, heal, hst, hl] at hw
            subst hw
            exact ⟨rfl, rfl⟩
    obtain ⟨h1, h2⟩ := hframe v hv
    rw [h1, h2]
    exact h
  · intro v hv
    by_cases hok : ok = true
    · subst hok
      simp [repo_reset_daily_lives] at hv
      rw [← hv]
      exact h
    · rw [Bool.not_eq_true] at hok
      subst hok
      simp [repo_reset_daily_lives] at hv
      rw [← hv]
      exact h
  · intro v hv
    by_cases hvis : (!u.deleted && u.active) = true
    · by_cases hd : u.lives_reset_date = today
      · simp [service_reset_daily_lives, visible, hvis, hd] at hv
        rw [← hv]
        exact h
      · by_cases hok : ok = true
        · subst hok
          simp [service_reset_daily_lives, visible, repo_reset_daily_lives, hvis, hd] at hv
          rw [← hv]
          exact h
        · rw [Bool.not_eq_true] at hok
          subst hok
          simp [service_reset_daily_lives, visible, repo_reset_daily_lives, hvis, hd] at hv
          rw [← hv]
          exact h
    · simp [service_reset_daily_lives, visible, hvis] at hv
      rw [← hv]
      exact h
  · intro v hv
    by_cases hvis : (!u.deleted && u.active) = true
    · by_cases hd : u.lives_reset_date = today
      · simp [check_and_reset_daily_lives, visible, hvis, hd] at hv
        rw [← hv]
        exact h
      · by_cases hok : ok = true
        · subst hok
          simp [check_and_reset_daily_lives, service_reset_daily_lives, visible,
            repo_reset_daily_lives, hvis, hd] at hv
          rw [← hv]
          exact h
        · rw [Bool.not_eq_true] at hok
          subst hok
          simp [check_and_reset_daily_lives, service_reset_daily_lives, visible,
            repo_reset_daily_lives, hvis, hd] at hv
          rw [← hv]
          exact h
    · simp [check_and_reset_daily_lives, visible, hvis] at hv
      rw [← hv]
      exact h
  · intro hp v hv
    by_cases hvis : (!u.deleted && u.active) = true
    · simp [update_user_game_stats, update_game_stats, visible, hvis] at hv
      rw [← hv]
      exact hp
    · simp [update_user_game_stats, visible, hvis] at hv
      subst hv
      exact h

/-- Witness for the amended C6 at a concrete state, covering a life
consumption and a consistent patch. -/
theorem c6_streak_invariant_amended_witness :
    (∀ v, (use_life (some ⟨0, 3, 5, 5, 0, true, false⟩) 0 true).db = some v →
        v.current_streak ≤ v.max_streak)
    ∧ (∀ v, (update_user_game_stats (some ⟨0, 3, 5, 5, 0, true, false⟩)
          ⟨none, some 4, none, none⟩).2 = some v →
        v.current_streak ≤ v.max_streak) :=
  ⟨(c6_streak_invariant_amended ⟨0, 3, 5, 5, 0, true, false⟩ (by decide) 0 0 0 true
      ⟨none, some 4, none, none⟩).2.2.1,
   (c6_streak_invariant_amended ⟨0, 3, 5, 5, 0, true, false⟩ (by decide) 0 0 0 true
      ⟨none, some 4, none, none⟩).2.2.2.2.2.2 (by decide)⟩

/-- Claim C7 (patch frame): on a visible user, the game-stats patch
returns and persists a state in which each field present in the patch
carries exactly the patched value, each absent field is unchanged, and
lives_reset_date together with the visibility flags is untouched. -/
theorem c7_patch_frame (u : GameUser) (p : GameStatsPatch)
    (hA : u.active = true) (hD : u.deleted = false) :
    (update_user_game_stats (some u) p).1 = (update_user_game_stats (some u) p).2
    ∧ (update_user_game_stats (some u) p).2.map GameUser.lives_reset_date
        = some u.lives_reset_date
    ∧ (update_user_game_stats (some u) p).2.map GameUser.active = some u.active
    ∧ (update_user_game_stats (some u) p).2.map GameUser.deleted = some u.deleted
    ∧ (p.total_points = none →
        (update_user_game_stats (some u) p).2.map GameUser.total_points
          = some u.total_points)
    ∧ (∀ x, p.total_points = some x →
        (update_user_game_stats (some u) p).2.map GameUser.total_points = some x)
    ∧ (p.current_streak = none →
        (update_user_game_stats (some u) p).2.map GameUser.current_streak
          = some u.current_streak)
    ∧ (∀ x, p.current_streak = some x →
        (update_user_game_stats (some u) p).2.map GameUser.current_streak = some x)
    ∧ (p.max_streak = none →
        (update_user_game_stats (some u) p).2.map GameUser.max_streak
          = some u.max_streak)
    ∧ (∀ x, p.max_streak = some x →
        (update_user_game_stats (some u) p).2.map GameUser.max_streak = some x)
    ∧ (p.daily_lives = none →
        (update_user_game_stats (some u) p).2.map GameUser.daily_lives
          = some u.daily_lives)
    ∧ (∀ x, p.daily_lives = some x →
        (update_user_game_stats (some u) p).2.map GameUser.daily_lives = some x) := by
  have hgate : update_user_game_stats (some u) p = update_game_stats (some u) p := by
    simp [update_user_game_stats, visible, hA, hD]
  rw [hgate]
  refine ⟨by simp [update_game_stats], by simp [update_game_stats],
    by simp [update_game_stats], by simp [update_game_stats],
    ?_, ?_, ?_, ?_, ?_, ?_, ?_, ?_⟩ <;>
    first
      | (intro hnone; simp [update_game_stats, hnone])
      | (intro x hx; simp [update_game_stats, hx])

/-- Witness for C7: the spec section 8 scenario patching only
daily_lives to 3 changes daily_lives and nothing else. -/
theorem c7_patch_frame_witness :
    (update_user_game_stats (some ⟨7, 1, 2, 5, 9, true, false⟩)
        ⟨none, none, none, some 3⟩).2.map GameUser.daily_lives = some 3
    ∧ (update_user_game_stats (some ⟨7, 1, 2, 5, 9, true, false⟩)
        ⟨none, none, none, some 3⟩).2.map GameUser.total_points = some 7
    ∧ (update_user_game_stats (some ⟨7, 1, 2, 5, 9, true, false⟩)
        ⟨none, none, none, some 3⟩).2.map GameUser.lives_reset_date = some 9 :=
  ⟨(c7_patch_frame ⟨7, 1, 2, 5, 9, true, false⟩ ⟨none, none, none, some 3⟩
      rfl rfl).2.2.2.2.2.2.2.2.2.2.2 3 rfl,
   (c7_patch_frame ⟨7, 1, 2, 5, 9, true, false⟩ ⟨none, none, none, some 3⟩
      rfl rfl).2.2.2.2.1 rfl,
   (c7_patch_frame ⟨7, 1, 2, 5, 9, true, false⟩ ⟨none, none, none, some 3⟩
      rfl rfl).2.1⟩

/-- Claim C8, counterexample: the claim asserts that a persistence
failure propagates to the caller and is never converted into an ordinary
return value.  In the code every repository method catches the raised
exception, rolls back, and returns the ordinary value False: at a
concrete state, update_points under a failing commit returns False with
the state rolled back, and that False equals the ordinary value returned
for a missing record. -/
theorem c8_propagation_counterexample :
    update_points (some ⟨9, 0, 0, 5, 0, true, false⟩) 5 false
      = ⟨false, some ⟨9, 0, 0, 5, 0, true, false⟩, 1⟩
    ∧ (update_points (some ⟨9, 0, 0, 5, 0, true, false⟩) 5 false).ret
        = (update_points none 5 true).ret := by
  decide

/-- Claim C8 as amended: a persistence failure during save is caught by
the repository method, which rolls back so the persisted state is
unchanged (no partial mutation) and returns the ordinary value False to
the caller - the same value returned for a missing record - instead of
propagating the error. -/
theorem c8_propagation_amended (db : DB) (delta ns : Int) (today : Nat) :
    ((update_points db delta false).ret = false
      ∧ (update_points db delta false).db = db)
    ∧ ((update_streak db ns false).ret = false
      ∧ (update_streak db ns false).db = db)
    ∧ ((repo_reset_daily_lives db today false).ret = false
      ∧ (repo_reset_daily_lives db today false).db = db)
    ∧ ((use_life db today false).ret = false
      ∧ (use_life db today false).db = db) := by
  match db with
  | none => refine ⟨⟨rfl, rfl⟩, ⟨rfl, rfl⟩, ⟨rfl, rfl⟩, ⟨rfl, rfl⟩⟩
  | some u =>
    refine ⟨⟨rfl, rfl⟩, ⟨rfl, rfl⟩, ⟨rfl, rfl⟩, ?_, ?_⟩ <;>
      · simp only [use_life]
        split <;> simp

/-- Claim C9, counterexample: the claim asserts that the life-aware
operations take the date as a caller-supplied input and behave
independently of the ambient system time.  The Python methods take no
date argument and read date.today() internally: at a concrete persisted
state, the same use_life call returns different outcomes when the
ambient date is 1 versus 2. -/
theorem c9_clock_counterexample :
    use_life (some ⟨0, 0, 0, 5, 1, true, false⟩) 1 true
      ≠ use_life (some ⟨0, 0, 0, 5, 1, true, false⟩) 2 true := by
  decide

/-- Claim C9 as amended: the life-aware operations read the current date
from the system clock inside the repository and service rather than
taking it as a caller parameter, so their outcome genuinely depends on
the ambient date: whenever the stored lives_reset_date matches one
ambient date but not the other, use_life and the repository daily-life
reset give different outcomes for the same persisted state. -/
theorem c9_clock_amended (u : GameUser) (d1 d2 : Nat)
    (h1 : u.lives_reset_date = d1) (hne : d1 ≠ d2) :
    use_life (some u) d1 true ≠ use_life (some u) d2 true
    ∧ repo_reset_daily_lives (some u) d1 true
        ≠ repo_reset_daily_lives (some u) d2 true := by
  constructor
  · intro heq
    have hd : (use_life (some u) d1 true).db.map GameUser.lives_reset_date
        = (use_life (some u) d2 true).db.map GameUser.lives_reset_date := by
      rw [heq]
    have hr : (use_life (some u) d1 true).ret = (use_life (some u) d2 true).ret := by
      rw [heq]
    have hself : ¬ u.lives_reset_date ≠ d1 := by
      rw [h1]
      exact fun hc => hc rfl
    have hother : u.lives_reset_date ≠ d2 := by
      rw [h1]
      exact hne
    by_cases hl : u.daily_lives ≤ 0
    · norm_num [use_life, heal, hself, hother, hl, MAX_LIVES] at hr
    · norm_num [use_life, heal, hself, hother, hl, MAX_LIVES, h1, hne] at hd
  · intro heq
    have hd : (repo_reset_daily_lives (some u) d1 true).db.map GameUser.lives_reset_date
        = (repo_reset_daily_lives (some u) d2 true).db.map GameUser.lives_reset_date := by
      rw [heq]
    simp [repo_reset_daily_lives] at hd
    exact hne hd

/-- Witness for the amended C9 at a concrete state. -/
theorem c9_clock_amended_witness :
    use_life (some ⟨0, 0, 0, 5, 1, true, false⟩) 1 true
      ≠ use_life (some ⟨0, 0, 0, 5, 1, true, false⟩) 4 true :=
  (c9_clock_amended ⟨0, 0, 0, 5, 1, true, false⟩ 1 4 rfl (by decide)).1

/-- Claim C10 (playability on stale records): for the User model,
can_play is the conjunction of is_active with the disjunction
(lives_reset_date differs from today, or daily_lives positive); an
is_active user with a stale reset date can play even with zero lives,
and only on a current reset date does playability require positive
daily_lives.  The can_play field of the UserResponse projection obeys the
same shape with its bare active flag. -/
theorem c10_stale_playability (u : GameUser) (r : UserResponse) (today : Nat) :
    u.can_play today
      = (u.is_active && (decide (u.lives_reset_date ≠ today)
          || decide (u.daily_lives > 0)))
    ∧ (u.is_active = true → u.lives_reset_date ≠ today → u.can_play today = true)
    ∧ (u.lives_reset_date = today →
        u.can_play today = (u.is_active && decide (u.daily_lives > 0)))
    ∧ (r.active = true → r.lives_reset_date ≠ today →
        r.can_play_field today = true)
    ∧ (r.lives_reset_date = today →
        r.can_play_field today = (r.active && decide (r.daily_lives > 0))) := by
  refine ⟨?_, ?_, ?_, ?_, ?_⟩
  · by_cases hd : u.lives_reset_date ≠ today
    · simp [GameUser.can_play, GameUser.has_lives_today, hd]
    · simp [GameUser.can_play, GameUser.has_lives_today, hd]
  · intro hA hd
    simp [GameUser.can_play, GameUser.has_lives_today, hA, hd]
  · intro hd
    simp [GameUser.can_play, GameUser.has_lives_today, hd]
  · intro hA hd
    simp [UserResponse.can_play_field, hA, hd]
  · intro hd
    simp [UserResponse.can_play_field, hd]

/-- Witness for C10: an active user and a response with zero lives but a
stale reset date are both playable. -/
theorem c10_stale_playability_witness :
    (⟨0, 0, 0, 0, 3, true, false⟩ : GameUser).can_play 7 = true
    ∧ (⟨0, 0, 0, 0, 3, true⟩ : UserResponse).can_play_field 7 = true :=
  ⟨(c10_stale_playability ⟨0, 0, 0, 0, 3, true, false⟩ ⟨0, 0, 0, 0, 3, true⟩ 7).2.1
      rfl (by decide),
   (c10_stale_playability ⟨0, 0, 0, 0, 3, true, false⟩ ⟨0, 0, 0, 0, 3, true⟩ 7).2.2.2.1
      rfl (by decide)⟩

end Mentek
